import Mathlib

/-!
Verification of the StudyQ authentication service (`authService.ts` together
with the thin store wrapper `lib/supabase.ts`).

The service is shallowly embedded: the account store is a list of account
records plus optional injected store faults (a `some e` fault makes the
corresponding wrapper call throw, which the service's surrounding
`try/catch` turns into a generic system-error response).  Password hashing
and verification (`bcrypt`) are external, so they enter the model as
function parameters; timestamps are naturals (milliseconds, `Date.now()`).
Audit events are collected in a list, mirroring the rows inserted into the
`audit_trail` table.
-/

namespace StudyQ

inductive Role where
  | admin
  | teacher
  | student
deriving DecidableEq, Repr

/-- One row of the `users` table, with the fields the auth service reads or
writes.  `locked_until` and `last_login` are nullable timestamps. -/
structure Account where
  user_id : String
  name : String
  email : String
  role : Role
  password_hash : String
  whatsapp_number : Option String
  academic_year : Option Nat
  current_semester : Option Nat
  is_active : Bool
  force_password_change : Bool
  failed_login_attempts : Nat
  locked_until : Option Nat
  last_login : Option Nat
  created_at : Nat
deriving DecidableEq, Repr

/-- The `AuthUser` object the service hands back to callers: the account's
public profile, without the password hash and lockout counters. -/
structure AuthUser where
  user_id : String
  name : String
  email : String
  role : Role
  whatsapp_number : Option String
  academic_year : Option Nat
  current_semester : Option Nat
  is_active : Bool
  force_password_change : Bool
  last_login : Option Nat
  created_at : Nat
deriving DecidableEq, Repr

/-- `login` builds the returned profile from the record it fetched at the
start of the attempt (source lines 140-152). -/
def toAuthUser (a : Account) : AuthUser :=
  { user_id := a.user_id
    name := a.name
    email := a.email
    role := a.role
    whatsapp_number := a.whatsapp_number
    academic_year := a.academic_year
    current_semester := a.current_semester
    is_active := a.is_active
    force_password_change := a.force_password_change
    last_login := a.last_login
    created_at := a.created_at }

/-- The session token payload: `generateToken` encodes this object with
`btoa(JSON.stringify ...)`; the encoding is an injective serialisation, so
the model keeps the payload itself. -/
structure TokenPayload where
  user_id : String
  role : Role
  iat : Nat
  exp : Nat
deriving DecidableEq, Repr

def generateToken (user : AuthUser) (now : Nat) : TokenPayload :=
  { user_id := user.user_id
    role := user.role
    iat := now
    exp := now + 2 * 60 * 60 * 1000 }

/-- One row of the `audit_trail` table as written by `logAuditEvent`. -/
structure AuditEvent where
  user_id : Option String
  action : String
  details : String
deriving DecidableEq, Repr

/-- The account store together with injected fault behaviour of the
underlying client: a `some e` fault makes the corresponding wrapper call
throw `e`. -/
structure Store where
  accounts : List Account
  lookupFault : Option String
  updateFault : Option String
  auditFault : Option String
deriving DecidableEq, Repr

/-- `db.getUserByUsername`: `select * from users where name = username`
followed by `.single()`.  `.single()` reports error `PGRST116` when the
query returns zero or several rows, and the wrapper swallows exactly that
error and hands back `null`; any other error is thrown. -/
def getUserByUsername (s : Store) (username : String) : Except String (Option Account) :=
  match s.lookupFault with
  | some e => .error e
  | none =>
    match s.accounts.filter (fun a => a.name == username) with
    | [a] => .ok (some a)
    | _ => .ok none

/-- `db.getUserById`: same `.single()` + `PGRST116` treatment keyed on
`user_id`. -/
def getUserById (s : Store) (userId : String) : Except String (Option Account) :=
  match s.lookupFault with
  | some e => .error e
  | none =>
    match s.accounts.filter (fun a => a.user_id == userId) with
    | [a] => .ok (some a)
    | _ => .ok none

/-- `db.updateUser`: updates every row matching `user_id`, then `.single()`
throws unless exactly one row came back. -/
def updateUser (s : Store) (userId : String) (f : Account → Account) : Except String Store :=
  match s.updateFault with
  | some e => .error e
  | none =>
    if (s.accounts.filter (fun a => a.user_id == userId)).length = 1 then
      .ok { s with accounts := s.accounts.map (fun a => if a.user_id == userId then f a else a) }
    else
      .error "PGRST116"

/-- `logAuditEvent` appends one audit row; its own `try/catch` swallows an
insert failure, so a faulted audit sink leaves the trail unchanged and
never aborts the calling operation. -/
def logAuditEvent (s : Store) (log : List AuditEvent) (userId : Option String)
    (action : String) (details : String) : List AuditEvent :=
  match s.auditFault with
  | some _ => log
  | none => log ++ [{ user_id := userId, action := action, details := details }]

structure LoginCredentials where
  username : String
  password : String
deriving DecidableEq, Repr

/-- The object `login` resolves with:
`{ success, user?, token?, error? }`. -/
structure LoginResponse where
  success : Bool
  user : Option AuthUser
  token : Option TokenPayload
  error : Option String
deriving DecidableEq, Repr

def invalidCredentialsMsg : String := "Invalid username or password"

def accountInactiveMsg : String := "Account is inactive. Please contact administrator."

def accountLockedMsg : String := "Account is temporarily locked due to too many failed attempts"

def systemErrorMsg : String := "Login failed due to system error"

def failureResp (msg : String) : LoginResponse :=
  { success := false, user := none, token := none, error := some msg }

/-- Result of one `login` call: the response given to the caller, the store
afterwards, and the audit rows written during the call. -/
structure LoginOutput where
  resp : LoginResponse
  store : Store
  audit : List AuditEvent
deriving DecidableEq, Repr

def lockWindowMs : Nat := 15 * 60 * 1000

/-- The lock check of source line 110:
`user.locked_until && new Date(user.locked_until) > new Date()`. -/
def lockedAt (a : Account) (now : Nat) : Bool :=
  match a.locked_until with
  | some t => now < t
  | none => false

/-- The `updates` object built on the failed-verification path (source
lines 119-124): the incremented counter, plus `locked_until` = now + 15
minutes when the new count reaches 5. -/
def failedLoginUpdates (failedAttempts : Nat) (now : Nat) : Account → Account :=
  fun a =>
    if failedAttempts ≥ 5 then
      { a with failed_login_attempts := failedAttempts,
               locked_until := some (now + lockWindowMs) }
    else
      { a with failed_login_attempts := failedAttempts }

/-- The update applied on successful verification (source lines 133-137). -/
def successLoginUpdates (now : Nat) : Account → Account :=
  fun a => { a with failed_login_attempts := 0, locked_until := none,
                    last_login := some now }

/-- `AuthService.login` (source lines 90-164).  `verify p h` stands for
`bcrypt.compare(p, h)` and `now` for `Date.now()`.  The surrounding
`try/catch` maps any thrown store error to the generic system-error
response. -/
def login (verify : String → String → Bool) (now : Nat) (s : Store)
    (credentials : LoginCredentials) : LoginOutput :=
  match getUserByUsername s credentials.username with
  | .error _ => ⟨failureResp systemErrorMsg, s, []⟩
  | .ok none =>
    ⟨failureResp invalidCredentialsMsg, s,
      logAuditEvent s [] none "LOGIN_FAILED"
        ("Failed login attempt for username: " ++ credentials.username)⟩
  | .ok (some user) =>
    if user.is_active = false then
      ⟨failureResp accountInactiveMsg, s, []⟩
    else if lockedAt user now then
      ⟨failureResp accountLockedMsg, s, []⟩
    else if verify credentials.password user.password_hash = false then
      match updateUser s user.user_id
          (failedLoginUpdates (user.failed_login_attempts + 1) now) with
      | .error _ => ⟨failureResp systemErrorMsg, s, []⟩
      | .ok s1 =>
        ⟨failureResp invalidCredentialsMsg, s1,
          logAuditEvent s1 [] (some user.user_id) "LOGIN_FAILED"
            ("Failed login attempt for user: " ++ user.name)⟩
    else
      match updateUser s user.user_id (successLoginUpdates now) with
      | .error _ => ⟨failureResp systemErrorMsg, s, []⟩
      | .ok s1 =>
        let authUser := toAuthUser user
        let token := generateToken authUser now
        ⟨{ success := true, user := some authUser, token := some token, error := none }, s1,
          logAuditEvent s1 [] (some user.user_id) "LOGIN_SUCCESS"
            "User logged in successfully"⟩


/-- The object `changePassword` resolves with: `{ success, error? }`. -/
structure ChangePasswordResponse where
  success : Bool
  error : Option String
deriving DecidableEq, Repr

def userNotFoundMsg : String := "User not found"

def wrongCurrentPasswordMsg : String := "Current password is incorrect"

def changePasswordFailedMsg : String := "Failed to change password"

structure ChangePasswordOutput where
  resp : ChangePasswordResponse
  store : Store
  audit : List AuditEvent
deriving DecidableEq, Repr

/-- `AuthService.changePassword` (source lines 229-261).  `hashPassword`
stands for `bcrypt.hash` with the fixed salt rounds. -/
def changePassword (verify : String → String → Bool) (hashPassword : String → String)
    (s : Store) (userId currentPassword newPassword : String) : ChangePasswordOutput :=
  match getUserById s userId with
  | .error _ => ⟨{ success := false, error := some changePasswordFailedMsg }, s, []⟩
  | .ok none => ⟨{ success := false, error := some userNotFoundMsg }, s, []⟩
  | .ok (some user) =>
    if verify currentPassword user.password_hash = false then
      ⟨{ success := false, error := some wrongCurrentPasswordMsg }, s, []⟩
    else
      match updateUser s userId
          (fun a => { a with password_hash := hashPassword newPassword,
                             force_password_change := false }) with
      | .error _ => ⟨{ success := false, error := some changePasswordFailedMsg }, s, []⟩
      | .ok s1 =>
        ⟨{ success := true, error := none }, s1,
          logAuditEvent s1 [] (some userId) "PASSWORD_CHANGE" "Password changed successfully"⟩

/-- The character set of `generateTempPassword` (source line 293). -/
def tempPasswordChars : List Char :=
  "ABCDEFGHJKMNPQRSTUVWXYZabcdefghijkmnpqrstuvwxyz23456789!@#$%&*".toList

/-- `AuthService.generateTempPassword` (source lines 292-299): twelve
characters, each picked by `chars.charAt(Math.floor(Math.random() * chars.length))`.
`rand i` models the `i`-th draw of the random source; `Math.floor` of a
value in `[0, chars.length)` is modelled by reduction mod the length. -/
def generateTempPassword (rand : Nat → Nat) : String :=
  String.mk ((List.range 12).map
    (fun i => tempPasswordChars.getD (rand i % tempPasswordChars.length) 'A'))

/-- The object `resetUserPassword` resolves with:
`{ success, tempPassword?, error? }`. -/
structure ResetPasswordResponse where
  success : Bool
  tempPassword : Option String
  error : Option String
deriving DecidableEq, Repr

def resetFailedMsg : String := "Failed to reset password"

structure ResetPasswordOutput where
  resp : ResetPasswordResponse
  store : Store
  audit : List AuditEvent
deriving DecidableEq, Repr

/-- `AuthService.resetUserPassword` (source lines 263-290).  `actor` is
`this.currentUser?.user_id || null`, the administrator performing the
reset. -/
def resetUserPassword (hashPassword : String → String) (rand : Nat → Nat)
    (s : Store) (actor : Option String) (userId : String) : ResetPasswordOutput :=
  let tempPassword := generateTempPassword rand
  let hashedPassword := hashPassword tempPassword
  match updateUser s userId
      (fun a => { a with password_hash := hashedPassword,
                         force_password_change := true,
                         failed_login_attempts := 0,
                         locked_until := none }) with
  | .error _ => ⟨{ success := false, tempPassword := none, error := some resetFailedMsg }, s, []⟩
  | .ok s1 =>
    ⟨{ success := true, tempPassword := some tempPassword, error := none }, s1,
      logAuditEvent s1 [] actor "PASSWORD_RESET" ("Reset password for user: " ++ userId)⟩

/-- All records of the store carrying a given `user_id`. -/
def accountsFor (s : Store) (userId : String) : List Account :=
  s.accounts.filter (fun x => x.user_id == userId)

/-! ### Concrete sample data, used to evaluate the theorems on closed inputs -/

/-- A concrete active account used to instantiate the theorems. -/
def sampleAccount : Account :=
  { user_id := "STD-1"
    name := "alice"
    email := "alice@example.com"
    role := .student
    password_hash := "hash:pw"
    whatsapp_number := none
    academic_year := some 2
    current_semester := some 3
    is_active := true
    force_password_change := false
    failed_login_attempts := 0
    last_login := some 50
    locked_until := none
    created_at := 1 }

/-- A concrete stand-in for `bcrypt.compare`: the password verifies against
exactly the string `"hash:" ++ password`. -/
def sampleVerify : String → String → Bool :=
  fun password hash => ("hash:" ++ password) == hash

/-- A concrete stand-in for `bcrypt.hash`. -/
def sampleHash : String → String :=
  fun password => "hash:" ++ password

/-- A fault-free one-account store. -/
def sampleStore (a : Account) : Store :=
  { accounts := [a], lookupFault := none, updateFault := none, auditFault := none }

/-- `sampleAccount` deactivated. -/
def cxInactiveAccount : Account :=
  { sampleAccount with is_active := false }

/-- `sampleAccount` after four failed attempts. -/
def fourFailuresAccount : Account :=
  { sampleAccount with failed_login_attempts := 4 }

/-- `sampleAccount` locked at the threshold: five failures, lock expiring at
timestamp 901000. -/
def lockedSampleAccount : Account :=
  { sampleAccount with failed_login_attempts := 5, locked_until := some 901000 }

/-- An inactive account whose lock has expired while the failure counter is
still at the threshold. -/
def cxExpiredInactiveAccount : Account :=
  { sampleAccount with is_active := false, failed_login_attempts := 5,
                       locked_until := some 900 }

/-- An active account whose lock has expired while the failure counter is
still at the threshold. -/
def expiredLockAccount : Account :=
  { sampleAccount with failed_login_attempts := 5, locked_until := some 900 }

/-! ### Helper lemmas about the store wrappers -/

theorem getUserByUsername_found (s : Store) (u : String) (a : Account)
    (hlf : s.lookupFault = none)
    (hname : s.accounts.filter (fun x => x.name == u) = [a]) :
    getUserByUsername s u = .ok (some a) := by
  simp [getUserByUsername, hlf, hname]

theorem getUserByUsername_missing (s : Store) (u : String)
    (hlf : s.lookupFault = none)
    (hname : s.accounts.filter (fun x => x.name == u) = []) :
    getUserByUsername s u = .ok none := by
  simp [getUserByUsername, hlf, hname]

theorem getUserById_found (s : Store) (userId : String) (a : Account)
    (hlf : s.lookupFault = none)
    (hid : s.accounts.filter (fun x => x.user_id == userId) = [a]) :
    getUserById s userId = .ok (some a) := by
  simp [getUserById, hlf, hid]

theorem updateUser_ok (s : Store) (userId : String) (f : Account → Account) (a : Account)
    (huf : s.updateFault = none)
    (hid : s.accounts.filter (fun x => x.user_id == userId) = [a]) :
    updateUser s userId f =
      .ok { s with accounts := s.accounts.map (fun x => if x.user_id == userId then f x else x) } := by
  simp [updateUser, huf, hid]

/-- Updating the rows matching `userId` with a `user_id`-preserving function
commutes with filtering for `userId`. -/
theorem filter_map_update (l : List Account) (userId : String) (f : Account → Account)
    (hf : ∀ x, (f x).user_id = x.user_id) :
    (l.map (fun x => if x.user_id == userId then f x else x)).filter
        (fun x => x.user_id == userId)
      = (l.filter (fun x => x.user_id == userId)).map f := by
  rw [List.filter_map]
  rw [List.filter_congr]
  · apply List.map_congr_left
    intro x hx
    have hpx := List.of_mem_filter hx
    simp only [Function.comp] at hpx ⊢
    simp [hpx]
  · intro x hx
    by_cases hc : (x.user_id == userId) = true
    · simp [Function.comp, hc, hf x]
    · simp only [Bool.not_eq_true] at hc
      simp [Function.comp, hc]

/-- `updateUser` keyed on a `user_id` held by exactly one record rewrites
exactly that record. -/
theorem accountsFor_after_update (s : Store) (userId : String) (a : Account)
    (f : Account → Account)
    (hf : ∀ x, (f x).user_id = x.user_id)
    (hid : s.accounts.filter (fun x => x.user_id == userId) = [a]) :
    accountsFor
      { s with accounts := s.accounts.map (fun x => if x.user_id == userId then f x else x) }
      userId = [f a] := by
  show (s.accounts.map (fun x => if x.user_id == userId then f x else x)).filter
      (fun x => x.user_id == userId) = [f a]
  rw [filter_map_update _ _ _ hf, hid]
  rfl

theorem failedLoginUpdates_user_id (failedAttempts now : Nat) (x : Account) :
    (failedLoginUpdates failedAttempts now x).user_id = x.user_id := by
  unfold failedLoginUpdates
  by_cases h : failedAttempts ≥ 5 <;> simp [h]

/-! ### Path lemmas for `login`: one full-output equation per source path -/

theorem login_unknown_handle_eq (verify : String → String → Bool) (now : Nat) (s : Store)
    (creds : LoginCredentials)
    (hlf : s.lookupFault = none)
    (hname : s.accounts.filter (fun x => x.name == creds.username) = []) :
    login verify now s creds = ⟨failureResp invalidCredentialsMsg, s,
      logAuditEvent s [] none "LOGIN_FAILED"
        ("Failed login attempt for username: " ++ creds.username)⟩ := by
  rw [login, getUserByUsername_missing s creds.username hlf hname]

theorem login_inactive_eq (verify : String → String → Bool) (now : Nat) (s : Store)
    (creds : LoginCredentials) (a : Account)
    (hlf : s.lookupFault = none)
    (hname : s.accounts.filter (fun x => x.name == creds.username) = [a])
    (hin : a.is_active = false) :
    login verify now s creds = ⟨failureResp accountInactiveMsg, s, []⟩ := by
  rw [login, getUserByUsername_found s creds.username a hlf hname]
  simp [hin]

theorem login_locked_eq (verify : String → String → Bool) (now : Nat) (s : Store)
    (creds : LoginCredentials) (a : Account)
    (hlf : s.lookupFault = none)
    (hname : s.accounts.filter (fun x => x.name == creds.username) = [a])
    (hact : a.is_active = true) (hlock : lockedAt a now = true) :
    login verify now s creds = ⟨failureResp accountLockedMsg, s, []⟩ := by
  rw [login, getUserByUsername_found s creds.username a hlf hname]
  simp [hact, hlock]

theorem login_wrong_password_eq (verify : String → String → Bool) (now : Nat) (s : Store)
    (creds : LoginCredentials) (a : Account)
    (hlf : s.lookupFault = none) (huf : s.updateFault = none)
    (hname : s.accounts.filter (fun x => x.name == creds.username) = [a])
    (hid : s.accounts.filter (fun x => x.user_id == a.user_id) = [a])
    (hact : a.is_active = true) (hnl : lockedAt a now = false)
    (hw : verify creds.password a.password_hash = false) :
    login verify now s creds =
      let s1 : Store := { s with accounts := s.accounts.map (fun x =>
        if x.user_id == a.user_id then
          failedLoginUpdates (a.failed_login_attempts + 1) now x
        else x) }
      ⟨failureResp invalidCredentialsMsg, s1,
        logAuditEvent s1 [] (some a.user_id) "LOGIN_FAILED"
          ("Failed login attempt for user: " ++ a.name)⟩ := by
  have hu := updateUser_ok s a.user_id
    (failedLoginUpdates (a.failed_login_attempts + 1) now) a huf hid
  rw [login, getUserByUsername_found s creds.username a hlf hname]
  simp [hact, hnl, hw, hu]

theorem login_correct_password_eq (verify : String → String → Bool) (now : Nat) (s : Store)
    (creds : LoginCredentials) (a : Account)
    (hlf : s.lookupFault = none) (huf : s.updateFault = none)
    (hname : s.accounts.filter (fun x => x.name == creds.username) = [a])
    (hid : s.accounts.filter (fun x => x.user_id == a.user_id) = [a])
    (hact : a.is_active = true) (hnl : lockedAt a now = false)
    (hv : verify creds.password a.password_hash = true) :
    login verify now s creds =
      let s1 : Store := { s with accounts := s.accounts.map (fun x =>
        if x.user_id == a.user_id then successLoginUpdates now x else x) }
      ⟨{ success := true, user := some (toAuthUser a),
         token := some (generateToken (toAuthUser a) now), error := none }, s1,
        logAuditEvent s1 [] (some a.user_id) "LOGIN_SUCCESS"
          "User logged in successfully"⟩ := by
  have hu := updateUser_ok s a.user_id (successLoginUpdates now) a huf hid
  rw [login, getUserByUsername_found s creds.username a hlf hname]
  simp [hact, hnl, hv, hu]

/-! ### Claim theorems -/

/-- C2: for every active, non-locked account, a login attempt with the
correct password resets `failed_login_attempts` to 0, clears `locked_until`,
sets `last_login` to the current time in the persisted record, and returns a
success outcome carrying the account's public profile and a session token. -/
theorem login_success_resets_state
    (verify : String → String → Bool) (now : Nat) (s : Store)
    (creds : LoginCredentials) (a : Account)
    (hlf : s.lookupFault = none) (huf : s.updateFault = none)
    (hname : s.accounts.filter (fun x => x.name == creds.username) = [a])
    (hid : s.accounts.filter (fun x => x.user_id == a.user_id) = [a])
    (hact : a.is_active = true) (hnl : lockedAt a now = false)
    (hv : verify creds.password a.password_hash = true) :
    (login verify now s creds).resp =
      { success := true, user := some (toAuthUser a),
        token := some (generateToken (toAuthUser a) now), error := none } ∧
    accountsFor (login verify now s creds).store a.user_id =
      [{ a with failed_login_attempts := 0, locked_until := none,
                last_login := some now }] := by
  rw [login_correct_password_eq verify now s creds a hlf huf hname hid hact hnl hv]
  exact ⟨rfl, accountsFor_after_update s a.user_id a _ (fun x => rfl) hid⟩

/-- Evaluates C2 on `sampleAccount` with the correct password at time 1000. -/
theorem login_success_resets_state_witness :
    (login sampleVerify 1000 (sampleStore sampleAccount) ⟨"alice", "pw"⟩).resp =
      { success := true, user := some (toAuthUser sampleAccount),
        token := some (generateToken (toAuthUser sampleAccount) 1000), error := none } ∧
    accountsFor (login sampleVerify 1000 (sampleStore sampleAccount) ⟨"alice", "pw"⟩).store
        "STD-1" =
      [{ sampleAccount with failed_login_attempts := 0, locked_until := none,
                            last_login := some 1000 }] :=
  login_success_resets_state sampleVerify 1000 (sampleStore sampleAccount) ⟨"alice", "pw"⟩
    sampleAccount rfl rfl (by decide) (by decide) rfl rfl (by decide)

/-- C10: the profile in a successful login's response carries the
`last_login` read from the store before the attempt, while the persisted
record is updated to the attempt's own timestamp. -/
theorem login_success_stale_last_login
    (verify : String → String → Bool) (now : Nat) (s : Store)
    (creds : LoginCredentials) (a : Account)
    (hlf : s.lookupFault = none) (huf : s.updateFault = none)
    (hname : s.accounts.filter (fun x => x.name == creds.username) = [a])
    (hid : s.accounts.filter (fun x => x.user_id == a.user_id) = [a])
    (hact : a.is_active = true) (hnl : lockedAt a now = false)
    (hv : verify creds.password a.password_hash = true) :
    (login verify now s creds).resp.user = some (toAuthUser a) ∧
    (toAuthUser a).last_login = a.last_login ∧
    accountsFor (login verify now s creds).store a.user_id =
      [{ a with failed_login_attempts := 0, locked_until := none,
                last_login := some now }] ∧
    (a.last_login ≠ some now → (toAuthUser a).last_login ≠ some now) := by
  rw [login_correct_password_eq verify now s creds a hlf huf hname hid hact hnl hv]
  exact ⟨rfl, rfl, accountsFor_after_update s a.user_id a _ (fun x => rfl) hid,
    fun h => h⟩

/-- Evaluates C10 on `sampleAccount`: the response keeps the old timestamp
50 while the store moves to 1000. -/
theorem login_success_stale_last_login_witness :
    (login sampleVerify 1000 (sampleStore sampleAccount) ⟨"alice", "pw"⟩).resp.user =
      some (toAuthUser sampleAccount) ∧
    (toAuthUser sampleAccount).last_login = some 50 ∧
    accountsFor (login sampleVerify 1000 (sampleStore sampleAccount) ⟨"alice", "pw"⟩).store
        "STD-1" =
      [{ sampleAccount with failed_login_attempts := 0, locked_until := none,
                            last_login := some 1000 }] ∧
    ((some 50 : Option Nat) ≠ some 1000 → (toAuthUser sampleAccount).last_login ≠ some 1000) :=
  login_success_stale_last_login sampleVerify 1000 (sampleStore sampleAccount)
    ⟨"alice", "pw"⟩ sampleAccount rfl rfl (by decide) (by decide) rfl rfl (by decide)

/-- C4: an inactive account, or an account whose `locked_until` is strictly
in the future, short-circuits login before any write: the store is exactly
unchanged, whatever password is presented. -/
theorem login_shortCircuit_no_mutation
    (verify : String → String → Bool) (now : Nat) (s : Store)
    (creds : LoginCredentials) (a : Account)
    (hlf : s.lookupFault = none)
    (hname : s.accounts.filter (fun x => x.name == creds.username) = [a])
    (h : a.is_active = false ∨ lockedAt a now = true) :
    (login verify now s creds).store = s := by
  rcases h with h | h
  · rw [login_inactive_eq verify now s creds a hlf hname h]
  · by_cases hact : a.is_active = true
    · rw [login_locked_eq verify now s creds a hlf hname hact h]
    · rw [login_inactive_eq verify now s creds a hlf hname (by simpa using hact)]

/-- Evaluates C4 on an inactive account and on a locked account, both with
the correct password. -/
theorem login_shortCircuit_no_mutation_witness :
    (login sampleVerify 1000 (sampleStore cxInactiveAccount) ⟨"alice", "pw"⟩).store =
      sampleStore cxInactiveAccount ∧
    (login sampleVerify 1000 (sampleStore lockedSampleAccount) ⟨"alice", "pw"⟩).store =
      sampleStore lockedSampleAccount :=
  ⟨login_shortCircuit_no_mutation sampleVerify 1000 (sampleStore cxInactiveAccount)
      ⟨"alice", "pw"⟩ cxInactiveAccount rfl (by decide) (Or.inl rfl),
   login_shortCircuit_no_mutation sampleVerify 1000 (sampleStore lockedSampleAccount)
      ⟨"alice", "pw"⟩ lockedSampleAccount rfl (by decide) (Or.inr (by decide))⟩

/-- C5: an attempt with an unknown handle and an attempt with a wrong
password on an existing active, non-locked account return the same response
object, with the same user-facing message. -/
theorem login_enumeration_resistant
    (v1 v2 : String → String → Bool) (now1 now2 : Nat) (s1 s2 : Store)
    (creds1 creds2 : LoginCredentials) (a : Account)
    (h1lf : s1.lookupFault = none)
    (h1 : s1.accounts.filter (fun x => x.name == creds1.username) = [])
    (h2lf : s2.lookupFault = none) (h2uf : s2.updateFault = none)
    (h2name : s2.accounts.filter (fun x => x.name == creds2.username) = [a])
    (h2id : s2.accounts.filter (fun x => x.user_id == a.user_id) = [a])
    (hact : a.is_active = true) (hnl : lockedAt a now2 = false)
    (hw : v2 creds2.password a.password_hash = false) :
    (login v1 now1 s1 creds1).resp = (login v2 now2 s2 creds2).resp ∧
    (login v1 now1 s1 creds1).resp = failureResp invalidCredentialsMsg := by
  rw [login_unknown_handle_eq v1 now1 s1 creds1 h1lf h1,
      login_wrong_password_eq v2 now2 s2 creds2 a h2lf h2uf h2name h2id hact hnl hw]
  exact ⟨rfl, rfl⟩

/-- Evaluates C5: handle `"bob"` is unknown in a store holding only
`sampleAccount`, and `"alice"` exists with a wrong password. -/
theorem login_enumeration_resistant_witness :
    (login sampleVerify 1000 (sampleStore sampleAccount) ⟨"bob", "pw"⟩).resp =
      (login sampleVerify 1000 (sampleStore sampleAccount) ⟨"alice", "bad"⟩).resp ∧
    (login sampleVerify 1000 (sampleStore sampleAccount) ⟨"bob", "pw"⟩).resp =
      failureResp invalidCredentialsMsg :=
  login_enumeration_resistant sampleVerify sampleVerify 1000 1000
    (sampleStore sampleAccount) (sampleStore sampleAccount)
    ⟨"bob", "pw"⟩ ⟨"alice", "bad"⟩ sampleAccount
    rfl (by decide) rfl rfl (by decide) (by decide) rfl rfl (by decide)

/-- C1 counterexample: an inactive account with fewer than 5 failures and
no future lock, on a wrong-password attempt, does not have its counter
incremented (the store is untouched) and does not get the
invalid-credentials response, refuting the claim as stated. -/
theorem login_wrong_password_inactive_counterexample :
    cxInactiveAccount.failed_login_attempts < 5 ∧
    lockedAt cxInactiveAccount 1000 = false ∧
    sampleVerify "bad" cxInactiveAccount.password_hash = false ∧
    accountsFor
      (login sampleVerify 1000 (sampleStore cxInactiveAccount) ⟨"alice", "bad"⟩).store
      "STD-1" = [cxInactiveAccount] ∧
    accountsFor
      (login sampleVerify 1000 (sampleStore cxInactiveAccount) ⟨"alice", "bad"⟩).store
      "STD-1" ≠
      [{ cxInactiveAccount with
          failed_login_attempts := cxInactiveAccount.failed_login_attempts + 1 }] ∧
    (login sampleVerify 1000 (sampleStore cxInactiveAccount) ⟨"alice", "bad"⟩).resp ≠
      failureResp invalidCredentialsMsg := by
  decide

/-- C1 (amended with `is_active`): for every active account with fewer than
5 recorded failures and no future `locked_until`, a wrong-password attempt
increments `failed_login_attempts` by exactly one, sets `locked_until` to
now + 15 minutes exactly when the new count reaches 5, and returns the
invalid-credentials response; and any attempt on an active account whose
`locked_until` is strictly in the future gets the locked response whatever
the password verifies to. -/
theorem login_wrong_password_lockout
    (verify : String → String → Bool) (now : Nat) (s : Store)
    (creds : LoginCredentials) (a : Account)
    (hlf : s.lookupFault = none) (huf : s.updateFault = none)
    (hname : s.accounts.filter (fun x => x.name == creds.username) = [a])
    (hid : s.accounts.filter (fun x => x.user_id == a.user_id) = [a])
    (hact : a.is_active = true) (hnl : lockedAt a now = false)
    (hlt : a.failed_login_attempts < 5)
    (hw : verify creds.password a.password_hash = false) :
    (login verify now s creds).resp = failureResp invalidCredentialsMsg ∧
    accountsFor (login verify now s creds).store a.user_id =
      [if a.failed_login_attempts + 1 ≥ 5 then
         { a with failed_login_attempts := a.failed_login_attempts + 1,
                  locked_until := some (now + lockWindowMs) }
       else
         { a with failed_login_attempts := a.failed_login_attempts + 1 }] ∧
    (∀ (verify2 : String → String → Bool) (now2 : Nat) (s2 : Store)
        (creds2 : LoginCredentials) (b : Account),
      s2.lookupFault = none →
      s2.accounts.filter (fun x => x.name == creds2.username) = [b] →
      b.is_active = true → lockedAt b now2 = true →
      (login verify2 now2 s2 creds2).resp = failureResp accountLockedMsg) := by
  rw [login_wrong_password_eq verify now s creds a hlf huf hname hid hact hnl hw]
  refine ⟨rfl, ?_, ?_⟩
  · exact accountsFor_after_update s a.user_id a
      (failedLoginUpdates (a.failed_login_attempts + 1) now)
      (failedLoginUpdates_user_id _ now) hid
  · intro verify2 now2 s2 creds2 b h2lf h2name hbact hblock
    rw [login_locked_eq verify2 now2 s2 creds2 b h2lf h2name hbact hblock]

/-- Evaluates amended C1: the fifth failure on `fourFailuresAccount` at
time 1000 locks until 901000 = 1000 + 15 minutes, and the locked record is
then rejected at time 1500 even with the correct password. -/
theorem login_wrong_password_lockout_witness :
    (login sampleVerify 1000 (sampleStore fourFailuresAccount) ⟨"alice", "bad"⟩).resp =
      failureResp invalidCredentialsMsg ∧
    accountsFor
      (login sampleVerify 1000 (sampleStore fourFailuresAccount) ⟨"alice", "bad"⟩).store
      "STD-1" = [lockedSampleAccount] ∧
    (login sampleVerify 1500 (sampleStore lockedSampleAccount) ⟨"alice", "pw"⟩).resp =
      failureResp accountLockedMsg := by
  have h := login_wrong_password_lockout sampleVerify 1000
    (sampleStore fourFailuresAccount) ⟨"alice", "bad"⟩ fourFailuresAccount
    rfl rfl (by decide) (by decide) rfl rfl (by decide) (by decide)
  exact ⟨h.1, h.2.1.trans (by decide),
    h.2.2 sampleVerify 1500 (sampleStore lockedSampleAccount) ⟨"alice", "pw"⟩
      lockedSampleAccount rfl (by decide) rfl (by decide)⟩

/-- C9 counterexample: an inactive account with an expired lock and the
counter still at 5 is not re-locked by a further wrong-password attempt
(the store is untouched), refuting the claim as stated. -/
theorem login_relock_inactive_counterexample :
    lockedAt cxExpiredInactiveAccount 1000 = false ∧
    5 ≤ cxExpiredInactiveAccount.failed_login_attempts ∧
    sampleVerify "bad" cxExpiredInactiveAccount.password_hash = false ∧
    (login sampleVerify 1000 (sampleStore cxExpiredInactiveAccount) ⟨"alice", "bad"⟩).store =
      sampleStore cxExpiredInactiveAccount ∧
    accountsFor
      (login sampleVerify 1000 (sampleStore cxExpiredInactiveAccount) ⟨"alice", "bad"⟩).store
      "STD-1" ≠
      [{ cxExpiredInactiveAccount with
          failed_login_attempts := cxExpiredInactiveAccount.failed_login_attempts + 1,
          locked_until := some (1000 + lockWindowMs) }] := by
  decide

/-- C9 (amended with `is_active`): for every active account whose lock has
elapsed but whose counter is still at least 5, a single further
wrong-password attempt sets `locked_until` = now + 15 minutes again, because
the counter is never reset on lock expiry and the lock condition tests the
new count ≥ 5. -/
theorem login_relock_after_expiry
    (verify : String → String → Bool) (now : Nat) (s : Store)
    (creds : LoginCredentials) (a : Account)
    (hlf : s.lookupFault = none) (huf : s.updateFault = none)
    (hname : s.accounts.filter (fun x => x.name == creds.username) = [a])
    (hid : s.accounts.filter (fun x => x.user_id == a.user_id) = [a])
    (hact : a.is_active = true) (hexp : lockedAt a now = false)
    (hge : 5 ≤ a.failed_login_attempts)
    (hw : verify creds.password a.password_hash = false) :
    (login verify now s creds).resp = failureResp invalidCredentialsMsg ∧
    accountsFor (login verify now s creds).store a.user_id =
      [{ a with failed_login_attempts := a.failed_login_attempts + 1,
                locked_until := some (now + lockWindowMs) }] := by
  rw [login_wrong_password_eq verify now s creds a hlf huf hname hid hact hexp hw]
  have h := accountsFor_after_update s a.user_id a
    (failedLoginUpdates (a.failed_login_attempts + 1) now)
    (failedLoginUpdates_user_id _ now) hid
  have h5 : a.failed_login_attempts + 1 ≥ 5 := Nat.le_succ_of_le hge
  refine ⟨rfl, h.trans ?_⟩
  simp [failedLoginUpdates, h5]

/-- Evaluates amended C9 on `expiredLockAccount` (counter 5, lock expired at
900) at time 1000: the store re-locks until 901000. -/
theorem login_relock_after_expiry_witness :
    (login sampleVerify 1000 (sampleStore expiredLockAccount) ⟨"alice", "bad"⟩).resp =
      failureResp invalidCredentialsMsg ∧
    accountsFor
      (login sampleVerify 1000 (sampleStore expiredLockAccount) ⟨"alice", "bad"⟩).store
      "STD-1" =
      [{ expiredLockAccount with failed_login_attempts := 6,
                                 locked_until := some 901000 }] :=
  login_relock_after_expiry sampleVerify 1000 (sampleStore expiredLockAccount)
    ⟨"alice", "bad"⟩ expiredLockAccount rfl rfl (by decide) (by decide) rfl
    (by decide) (by decide) (by decide)

/-- C3 counterexample: a login attempt on an inactive account, and one on a
locked account, each write no audit row at all, refuting "exactly one audit
event on every path". -/
theorem login_audit_counterexample :
    (login sampleVerify 1000 (sampleStore cxInactiveAccount) ⟨"alice", "pw"⟩).audit = [] ∧
    (login sampleVerify 1000 (sampleStore cxInactiveAccount) ⟨"alice", "pw"⟩).audit.length ≠ 1 ∧
    (login sampleVerify 1000 (sampleStore lockedSampleAccount) ⟨"alice", "pw"⟩).audit = [] ∧
    (login sampleVerify 1000 (sampleStore lockedSampleAccount) ⟨"alice", "pw"⟩).audit.length ≠ 1 := by
  decide

/-- C3 (amended): with a healthy audit sink, the absent-handle,
wrong-password and successful-login paths each write exactly one audit row,
while the inactive and locked short-circuit paths write none. -/
theorem login_audit_per_path
    (verify : String → String → Bool) (now : Nat) (s : Store)
    (creds : LoginCredentials)
    (hlf : s.lookupFault = none) (haf : s.auditFault = none) :
    (s.accounts.filter (fun x => x.name == creds.username) = [] →
      (login verify now s creds).audit.length = 1) ∧
    (∀ a : Account, s.accounts.filter (fun x => x.name == creds.username) = [a] →
      a.is_active = false → (login verify now s creds).audit = []) ∧
    (∀ a : Account, s.accounts.filter (fun x => x.name == creds.username) = [a] →
      a.is_active = true → lockedAt a now = true →
      (login verify now s creds).audit = []) ∧
    (∀ a : Account, s.updateFault = none →
      s.accounts.filter (fun x => x.name == creds.username) = [a] →
      s.accounts.filter (fun x => x.user_id == a.user_id) = [a] →
      a.is_active = true → lockedAt a now = false →
      verify creds.password a.password_hash = false →
      (login verify now s creds).audit.length = 1) ∧
    (∀ a : Account, s.updateFault = none →
      s.accounts.filter (fun x => x.name == creds.username) = [a] →
      s.accounts.filter (fun x => x.user_id == a.user_id) = [a] →
      a.is_active = true → lockedAt a now = false →
      verify creds.password a.password_hash = true →
      (login verify now s creds).audit.length = 1) := by
  refine ⟨?_, ?_, ?_, ?_, ?_⟩
  · intro h
    rw [login_unknown_handle_eq verify now s creds hlf h]
    simp [logAuditEvent, haf]
  · intro a hname hin
    rw [login_inactive_eq verify now s creds a hlf hname hin]
  · intro a hname hact hlock
    rw [login_locked_eq verify now s creds a hlf hname hact hlock]
  · intro a huf hname hid hact hnl hw
    rw [login_wrong_password_eq verify now s creds a hlf huf hname hid hact hnl hw]
    simp [logAuditEvent, haf]
  · intro a huf hname hid hact hnl hv
    rw [login_correct_password_eq verify now s creds a hlf huf hname hid hact hnl hv]
    simp [logAuditEvent, haf]

/-- Evaluates amended C3 on all five paths over concrete stores. -/
theorem login_audit_per_path_witness :
    (login sampleVerify 1000 (sampleStore sampleAccount) ⟨"bob", "pw"⟩).audit.length = 1 ∧
    (login sampleVerify 1000 (sampleStore cxInactiveAccount) ⟨"alice", "pw"⟩).audit = [] ∧
    (login sampleVerify 1000 (sampleStore lockedSampleAccount) ⟨"alice", "pw"⟩).audit = [] ∧
    (login sampleVerify 1000 (sampleStore sampleAccount) ⟨"alice", "bad"⟩).audit.length = 1 ∧
    (login sampleVerify 1000 (sampleStore sampleAccount) ⟨"alice", "pw"⟩).audit.length = 1 :=
  ⟨(login_audit_per_path sampleVerify 1000 (sampleStore sampleAccount)
      ⟨"bob", "pw"⟩ rfl rfl).1 (by decide),
   (login_audit_per_path sampleVerify 1000 (sampleStore cxInactiveAccount)
      ⟨"alice", "pw"⟩ rfl rfl).2.1 cxInactiveAccount (by decide) rfl,
   (login_audit_per_path sampleVerify 1000 (sampleStore lockedSampleAccount)
      ⟨"alice", "pw"⟩ rfl rfl).2.2.1 lockedSampleAccount (by decide) rfl (by decide),
   (login_audit_per_path sampleVerify 1000 (sampleStore sampleAccount)
      ⟨"alice", "bad"⟩ rfl rfl).2.2.2.1 sampleAccount rfl (by decide) (by decide)
      rfl rfl (by decide),
   (login_audit_per_path sampleVerify 1000 (sampleStore sampleAccount)
      ⟨"alice", "pw"⟩ rfl rfl).2.2.2.2 sampleAccount rfl (by decide) (by decide)
      rfl rfl (by decide)⟩

/-! ### Path lemmas for `changePassword` and `resetUserPassword` -/

theorem changePassword_wrong_eq (verify : String → String → Bool)
    (hashPassword : String → String) (s : Store)
    (userId currentPassword newPassword : String) (a : Account)
    (hlf : s.lookupFault = none)
    (hid : s.accounts.filter (fun x => x.user_id == userId) = [a])
    (hw : verify currentPassword a.password_hash = false) :
    changePassword verify hashPassword s userId currentPassword newPassword =
      ⟨{ success := false, error := some wrongCurrentPasswordMsg }, s, []⟩ := by
  rw [changePassword, getUserById_found s userId a hlf hid]
  simp [hw]

theorem changePassword_ok_eq (verify : String → String → Bool)
    (hashPassword : String → String) (s : Store)
    (userId currentPassword newPassword : String) (a : Account)
    (hlf : s.lookupFault = none) (huf : s.updateFault = none)
    (hid : s.accounts.filter (fun x => x.user_id == userId) = [a])
    (hv : verify currentPassword a.password_hash = true) :
    changePassword verify hashPassword s userId currentPassword newPassword =
      let s1 : Store := { s with accounts := s.accounts.map (fun x =>
        if x.user_id == userId then
          { x with password_hash := hashPassword newPassword,
                   force_password_change := false }
        else x) }
      ⟨{ success := true, error := none }, s1,
        logAuditEvent s1 [] (some userId) "PASSWORD_CHANGE"
          "Password changed successfully"⟩ := by
  have hu := updateUser_ok s userId
    (fun x => { x with password_hash := hashPassword newPassword,
                       force_password_change := false }) a huf hid
  rw [changePassword, getUserById_found s userId a hlf hid]
  simp at hu
  simp [hv, hu]

theorem resetUserPassword_ok_eq (hashPassword : String → String) (rand : Nat → Nat)
    (s : Store) (actor : Option String) (userId : String) (a : Account)
    (huf : s.updateFault = none)
    (hid : s.accounts.filter (fun x => x.user_id == userId) = [a]) :
    resetUserPassword hashPassword rand s actor userId =
      let p := generateTempPassword rand
      let s1 : Store := { s with accounts := s.accounts.map (fun x =>
        if x.user_id == userId then
          { x with password_hash := hashPassword p, force_password_change := true,
                   failed_login_attempts := 0, locked_until := none }
        else x) }
      ⟨{ success := true, tempPassword := some p, error := none }, s1,
        logAuditEvent s1 [] actor "PASSWORD_RESET"
          ("Reset password for user: " ++ userId)⟩ := by
  have hu := updateUser_ok s userId
    (fun x => { x with password_hash := hashPassword (generateTempPassword rand),
                       force_password_change := true, failed_login_attempts := 0,
                       locked_until := none }) a huf hid
  rw [resetUserPassword]
  simp at hu
  simp [hu]

/-! ### Temporary-password generator lemmas -/

theorem generateTempPassword_length (rand : Nat → Nat) :
    (generateTempPassword rand).length = 12 := by
  simp [generateTempPassword, String.length]

theorem generateTempPassword_chars (rand : Nat → Nat) :
    ∀ c ∈ (generateTempPassword rand).data, c ∈ tempPasswordChars := by
  intro c hc
  simp only [generateTempPassword, String.data, List.mem_map, List.mem_range] at hc
  obtain ⟨i, _, rfl⟩ := hc
  have hlt : rand i % tempPasswordChars.length < tempPasswordChars.length :=
    Nat.mod_lt _ (by decide)
  rw [List.getD_eq_getElem _ _ hlt]
  exact List.getElem_mem _

/-- Every character of the generator's alphabet is printable ASCII and none
of the visually ambiguous glyphs 0, O, o, 1, l, I is present. -/
theorem tempPasswordChars_unambiguous :
    ∀ c ∈ tempPasswordChars, 33 ≤ c.toNat ∧ c.toNat ≤ 126 ∧
      c ≠ '0' ∧ c ≠ 'O' ∧ c ≠ 'o' ∧ c ≠ '1' ∧ c ≠ 'l' ∧ c ≠ 'I' := by
  decide

/-- C6: `changePassword` with a non-matching current password returns the
invalid-current-password outcome and leaves the store entirely unchanged;
with a matching current password it stores the hash of the new password,
clears `force_password_change`, and returns success. -/
theorem changePassword_spec
    (verify : String → String → Bool) (hashPassword : String → String) (s : Store)
    (userId currentPassword newPassword : String) (a : Account)
    (hlf : s.lookupFault = none)
    (hid : s.accounts.filter (fun x => x.user_id == userId) = [a]) :
    (verify currentPassword a.password_hash = false →
      (changePassword verify hashPassword s userId currentPassword newPassword).resp =
        { success := false, error := some wrongCurrentPasswordMsg } ∧
      (changePassword verify hashPassword s userId currentPassword newPassword).store = s) ∧
    (verify currentPassword a.password_hash = true → s.updateFault = none →
      (changePassword verify hashPassword s userId currentPassword newPassword).resp =
        { success := true, error := none } ∧
      accountsFor
        (changePassword verify hashPassword s userId currentPassword newPassword).store
        userId =
        [{ a with password_hash := hashPassword newPassword,
                  force_password_change := false }]) := by
  constructor
  · intro hw
    rw [changePassword_wrong_eq verify hashPassword s userId currentPassword newPassword
      a hlf hid hw]
    exact ⟨rfl, rfl⟩
  · intro hv huf
    rw [changePassword_ok_eq verify hashPassword s userId currentPassword newPassword
      a hlf huf hid hv]
    exact ⟨rfl, accountsFor_after_update s userId a _ (fun x => rfl) hid⟩

/-- Evaluates C6 on `sampleAccount`: wrong current password "bad" leaves
the store unchanged, correct current password "pw" installs the hash of
"next" and clears the flag. -/
theorem changePassword_spec_witness :
    ((changePassword sampleVerify sampleHash (sampleStore sampleAccount)
        "STD-1" "bad" "next").resp =
      { success := false, error := some wrongCurrentPasswordMsg } ∧
     (changePassword sampleVerify sampleHash (sampleStore sampleAccount)
        "STD-1" "bad" "next").store = sampleStore sampleAccount) ∧
    ((changePassword sampleVerify sampleHash (sampleStore sampleAccount)
        "STD-1" "pw" "next").resp = { success := true, error := none } ∧
     accountsFor
       (changePassword sampleVerify sampleHash (sampleStore sampleAccount)
          "STD-1" "pw" "next").store "STD-1" =
       [{ sampleAccount with password_hash := sampleHash "next",
                             force_password_change := false }]) :=
  ⟨(changePassword_spec sampleVerify sampleHash (sampleStore sampleAccount)
      "STD-1" "bad" "next" sampleAccount rfl (by decide)).1 (by decide),
   (changePassword_spec sampleVerify sampleHash (sampleStore sampleAccount)
      "STD-1" "pw" "next" sampleAccount rfl (by decide)).2 (by decide) rfl⟩

/-- C7: a successful `resetUserPassword` returns a freshly generated
12-character temporary password over the printable, ambiguity-free
alphabet, and persists its hash together with `force_password_change` =
true and cleared lockout state, whatever the prior lockout state was. -/
theorem resetUserPassword_spec
    (hashPassword : String → String) (rand : Nat → Nat) (s : Store)
    (actor : Option String) (userId : String) (a : Account)
    (huf : s.updateFault = none)
    (hid : s.accounts.filter (fun x => x.user_id == userId) = [a]) :
    (resetUserPassword hashPassword rand s actor userId).resp =
      { success := true, tempPassword := some (generateTempPassword rand),
        error := none } ∧
    (generateTempPassword rand).length = 12 ∧
    (∀ c ∈ (generateTempPassword rand).data, c ∈ tempPasswordChars) ∧
    (∀ c ∈ tempPasswordChars, 33 ≤ c.toNat ∧ c.toNat ≤ 126 ∧
      c ≠ '0' ∧ c ≠ 'O' ∧ c ≠ 'o' ∧ c ≠ '1' ∧ c ≠ 'l' ∧ c ≠ 'I') ∧
    accountsFor (resetUserPassword hashPassword rand s actor userId).store userId =
      [{ a with password_hash := hashPassword (generateTempPassword rand),
                force_password_change := true, failed_login_attempts := 0,
                locked_until := none }] := by
  rw [resetUserPassword_ok_eq hashPassword rand s actor userId a huf hid]
  exact ⟨rfl, generateTempPassword_length rand, generateTempPassword_chars rand,
    tempPasswordChars_unambiguous,
    accountsFor_after_update s userId a _ (fun x => rfl) hid⟩

/-- Evaluates C7 on the locked `lockedSampleAccount` with a concrete random
source: the temporary password is "AQds7DTgv!GW" and the lock is cleared. -/
theorem resetUserPassword_spec_witness :
    (resetUserPassword sampleHash (fun i => i * 13)
      (sampleStore lockedSampleAccount) (some "ADM-1") "STD-1").resp =
      { success := true, tempPassword := some "AQds7DTgv!GW", error := none } ∧
    ("AQds7DTgv!GW" : String).length = 12 ∧
    accountsFor
      (resetUserPassword sampleHash (fun i => i * 13)
        (sampleStore lockedSampleAccount) (some "ADM-1") "STD-1").store "STD-1" =
      [{ lockedSampleAccount with password_hash := sampleHash "AQds7DTgv!GW",
                                  force_password_change := true,
                                  failed_login_attempts := 0,
                                  locked_until := none }] := by
  have h := resetUserPassword_spec sampleHash (fun i => i * 13)
    (sampleStore lockedSampleAccount) (some "ADM-1") "STD-1" lockedSampleAccount
    rfl (by decide)
  exact ⟨h.1.trans (by decide), by decide, (h.2.2.2.2).trans (by decide)⟩

/-! ### System-error behaviour of `login` -/

/-- Every `login` response is one of the four fixed failure messages or the
success shape: nothing else ever crosses the boundary. -/
theorem login_resp_taxonomy (verify : String → String → Bool) (now : Nat)
    (creds : LoginCredentials) (s : Store) :
    (login verify now s creds).resp = failureResp invalidCredentialsMsg ∨
    (login verify now s creds).resp = failureResp accountInactiveMsg ∨
    (login verify now s creds).resp = failureResp accountLockedMsg ∨
    (login verify now s creds).resp = failureResp systemErrorMsg ∨
    ∃ u t, (login verify now s creds).resp =
      { success := true, user := some u, token := some t, error := none } := by
  rw [login]
  rcases getUserByUsername s creds.username with e | u
  · exact Or.inr (Or.inr (Or.inr (Or.inl rfl)))
  · cases u with
    | none => exact Or.inl rfl
    | some a =>
      dsimp only
      by_cases h1 : a.is_active = false
      · refine Or.inr (Or.inl ?_)
        simp [h1]
      · rw [if_neg h1]
        by_cases h2 : lockedAt a now = true
        · refine Or.inr (Or.inr (Or.inl ?_))
          simp [h2]
        · rw [if_neg h2]
          by_cases h3 : verify creds.password a.password_hash = false
          · rw [if_pos h3]
            rcases updateUser s a.user_id
                (failedLoginUpdates (a.failed_login_attempts + 1) now) with e | s1
            · exact Or.inr (Or.inr (Or.inr (Or.inl rfl)))
            · exact Or.inl rfl
          · rw [if_neg h3]
            rcases updateUser s a.user_id (successLoginUpdates now) with e | s1
            · exact Or.inr (Or.inr (Or.inr (Or.inl rfl)))
            · exact Or.inr (Or.inr (Or.inr (Or.inr
                ⟨toAuthUser a, generateToken (toAuthUser a) now, rfl⟩)))

/-- A thrown lookup error is caught and mapped to the generic system-error
response, with no write and no audit row. -/
theorem login_lookup_fault_eq (verify : String → String → Bool) (now : Nat)
    (creds : LoginCredentials)
    (accounts : List Account) (e : String) (uf af : Option String) :
    login verify now ⟨accounts, some e, uf, af⟩ creds =
      ⟨failureResp systemErrorMsg, ⟨accounts, some e, uf, af⟩, []⟩ := by
  rw [login]
  rfl

/-- A thrown persistence error on a path that reaches the write is caught
and mapped to the generic system-error response. -/
theorem login_update_fault_eq (verify : String → String → Bool) (now : Nat)
    (creds : LoginCredentials) (s : Store) (a : Account) (e : String)
    (hlf : s.lookupFault = none) (huf : s.updateFault = some e)
    (hname : s.accounts.filter (fun x => x.name == creds.username) = [a])
    (hact : a.is_active = true) (hnl : lockedAt a now = false) :
    login verify now s creds = ⟨failureResp systemErrorMsg, s, []⟩ := by
  rw [login, getUserByUsername_found s creds.username a hlf hname]
  have hupd : ∀ f, updateUser s a.user_id f = .error e := by
    intro f
    simp [updateUser, huf]
  cases hv : verify creds.password a.password_hash
  · simp [hact, hnl, hv, hupd]
  · simp [hact, hnl, hv, hupd]

/-- The response never depends on the text of a thrown persistence error. -/
theorem login_update_fault_resp_independent (verify : String → String → Bool)
    (now : Nat) (creds : LoginCredentials)
    (accounts : List Account) (af : Option String) (e1 e2 : String) :
    (login verify now ⟨accounts, none, some e1, af⟩ creds).resp =
      (login verify now ⟨accounts, none, some e2, af⟩ creds).resp := by
  have hsame : getUserByUsername ⟨accounts, none, some e2, af⟩ creds.username
      = getUserByUsername ⟨accounts, none, some e1, af⟩ creds.username := rfl
  rw [login, login, hsame]
  rcases getUserByUsername ⟨accounts, none, some e1, af⟩ creds.username with e | u
  · rfl
  · cases u with
    | none => rfl
    | some a =>
      dsimp only
      by_cases h1 : a.is_active = false
      · simp [h1]
      · rw [if_neg h1, if_neg h1]
        by_cases h2 : lockedAt a now = true
        · simp [h2]
        · rw [if_neg h2, if_neg h2]
          by_cases h3 : verify creds.password a.password_hash = false
          · rw [if_pos h3, if_pos h3]
            simp [updateUser]
          · rw [if_neg h3, if_neg h3]
            simp [updateUser]

/-- C8: `login` never lets a store failure escape: every response is one of
the typed outcomes; a thrown lookup error, and a thrown persistence error
on a path that reaches the write, are caught and mapped to the generic
system-error response; that response never depends on the thrown error
text; and the generic message differs from the three authentication
failure messages. -/
theorem login_system_error_spec (verify : String → String → Bool) (now : Nat)
    (creds : LoginCredentials) :
    (∀ s : Store,
      (login verify now s creds).resp = failureResp invalidCredentialsMsg ∨
      (login verify now s creds).resp = failureResp accountInactiveMsg ∨
      (login verify now s creds).resp = failureResp accountLockedMsg ∨
      (login verify now s creds).resp = failureResp systemErrorMsg ∨
      ∃ u t, (login verify now s creds).resp =
        { success := true, user := some u, token := some t, error := none }) ∧
    (∀ (accounts : List Account) (e : String) (uf af : Option String),
      login verify now ⟨accounts, some e, uf, af⟩ creds =
        ⟨failureResp systemErrorMsg, ⟨accounts, some e, uf, af⟩, []⟩) ∧
    (∀ (s : Store) (a : Account) (e : String),
      s.lookupFault = none → s.updateFault = some e →
      s.accounts.filter (fun x => x.name == creds.username) = [a] →
      a.is_active = true → lockedAt a now = false →
      login verify now s creds = ⟨failureResp systemErrorMsg, s, []⟩) ∧
    (∀ (accounts : List Account) (uf af : Option String) (e1 e2 : String),
      (login verify now ⟨accounts, some e1, uf, af⟩ creds).resp =
        (login verify now ⟨accounts, some e2, uf, af⟩ creds).resp) ∧
    (∀ (accounts : List Account) (af : Option String) (e1 e2 : String),
      (login verify now ⟨accounts, none, some e1, af⟩ creds).resp =
        (login verify now ⟨accounts, none, some e2, af⟩ creds).resp) ∧
    (systemErrorMsg ≠ invalidCredentialsMsg ∧ systemErrorMsg ≠ accountInactiveMsg ∧
      systemErrorMsg ≠ accountLockedMsg) := by
  refine ⟨login_resp_taxonomy verify now creds,
    login_lookup_fault_eq verify now creds, login_update_fault_eq verify now creds,
    ?_, login_update_fault_resp_independent verify now creds, by decide⟩
  intro accounts uf af e1 e2
  rw [login_lookup_fault_eq verify now creds accounts e1 uf af,
    login_lookup_fault_eq verify now creds accounts e2 uf af]

/-- Evaluates C8 on concrete faulted stores: a lookup fault and an update
fault both yield the generic system-error outcome, independent of the
error text, and the messages are pairwise distinct. -/
theorem login_system_error_spec_witness :
    ((login sampleVerify 1000 (sampleStore sampleAccount) ⟨"alice", "pw"⟩).resp =
        failureResp invalidCredentialsMsg ∨
      (login sampleVerify 1000 (sampleStore sampleAccount) ⟨"alice", "pw"⟩).resp =
        failureResp accountInactiveMsg ∨
      (login sampleVerify 1000 (sampleStore sampleAccount) ⟨"alice", "pw"⟩).resp =
        failureResp accountLockedMsg ∨
      (login sampleVerify 1000 (sampleStore sampleAccount) ⟨"alice", "pw"⟩).resp =
        failureResp systemErrorMsg ∨
      ∃ u t, (login sampleVerify 1000 (sampleStore sampleAccount) ⟨"alice", "pw"⟩).resp =
        { success := true, user := some u, token := some t, error := none }) ∧
    login sampleVerify 1000 ⟨[sampleAccount], some "db down", none, none⟩ ⟨"alice", "pw"⟩ =
      ⟨failureResp systemErrorMsg, ⟨[sampleAccount], some "db down", none, none⟩, []⟩ ∧
    login sampleVerify 1000 ⟨[sampleAccount], none, some "db down", none⟩ ⟨"alice", "pw"⟩ =
      ⟨failureResp systemErrorMsg, ⟨[sampleAccount], none, some "db down", none⟩, []⟩ ∧
    (login sampleVerify 1000 ⟨[sampleAccount], some "db down", none, none⟩ ⟨"alice", "pw"⟩).resp =
      (login sampleVerify 1000 ⟨[sampleAccount], some "timeout", none, none⟩ ⟨"alice", "pw"⟩).resp ∧
    (login sampleVerify 1000 ⟨[sampleAccount], none, some "db down", none⟩ ⟨"alice", "pw"⟩).resp =
      (login sampleVerify 1000 ⟨[sampleAccount], none, some "timeout", none⟩ ⟨"alice", "pw"⟩).resp ∧
    (systemErrorMsg ≠ invalidCredentialsMsg ∧ systemErrorMsg ≠ accountInactiveMsg ∧
      systemErrorMsg ≠ accountLockedMsg) := by
  have h := login_system_error_spec sampleVerify 1000 ⟨"alice", "pw"⟩
  exact ⟨h.1 (sampleStore sampleAccount),
    h.2.1 [sampleAccount] "db down" none none,
    h.2.2.1 ⟨[sampleAccount], none, some "db down", none⟩ sampleAccount "db down"
      rfl rfl (by decide) rfl rfl,
    h.2.2.2.1 [sampleAccount] none none "db down" "timeout",
    h.2.2.2.2.1 [sampleAccount] none "db down" "timeout",
    h.2.2.2.2.2⟩

end StudyQ
